import Mathlib

/-!
Verification of the WebSocket relay in `src/proxy.py` (class `WebSocketProxy`).

The relay keeps a single optional browser connection (the "primary"), a set of
client connections (the "secondaries"), and a running flag.  Connections are
identified by opaque handles, modelled as natural numbers.  Python's `set` of
connections is modelled as a duplicate-free `List`.
-/

namespace Proxy

/-- Opaque connection handle (`id(websocket)` identity). -/
abbrev Conn := Nat

/-- Role handed out on accept: browser = Primary, client = Secondary. -/
inductive Role where
  | Primary
  | Secondary
deriving Repr, DecidableEq

/-- Shallow JSON values, enough for the envelopes the relay synthesizes with
`json.dumps` in `src/proxy.py`. -/
inductive Json where
  | str (s : String)
  | bool (b : Bool)
  | int (n : Int)
  | obj (fields : List (String × Json))

/-- A unit put on the wire by the relay: either a payload forwarded verbatim
(`await client.send(message)` on the raw inbound text) or a relay-synthesized
envelope (serialized with `json.dumps`). -/
inductive Wire where
  | raw (m : String)
  | env (j : Json)

/-- Top-level keys of a JSON object. -/
def Json.keys : Json → List String
  | .obj fields => fields.map Prod.fst
  | _ => []

/-- Field lookup in a JSON object. -/
def Json.lookup : Json → String → Option Json
  | .obj fields, k => List.lookup k fields
  | _, _ => none

/-- State of the relay, the fields set up in `WebSocketProxy.__init__`
(src/proxy.py lines 28-34).  `browser_connection` is the primary slot,
`client_connections` the secondary set, `server_listening` stands for the
live `self.server` listener. -/
structure WebSocketProxy where
  browser_connection : Option Conn := none
  client_connections : List Conn := []
  running : Bool := false
  server_listening : Bool := false
deriving Repr, DecidableEq

/-- Python `set.add` (line 93): inserts the element if not already present. -/
def pySetAdd (c : Conn) (l : List Conn) : List Conn :=
  if c ∈ l then l else l ++ [c]

/-- Python `set.remove` as used in the client cleanup (line 124): removes the
element if present, raises `KeyError` otherwise. -/
def pySetRemove (l : List Conn) (c : Conn) : Except String (List Conn) :=
  if c ∈ l then Except.ok (l.erase c) else Except.error "KeyError"

/-- The `status` envelope built by `json.dumps` at lines 82-88 and 98-104:
keys `type` and `data` only, `data` holding `connected` and `message`. -/
def statusEnvelope (connected : Bool) (message : String) : Json :=
  Json.obj [("type", Json.str "status"),
            ("data", Json.obj [("connected", Json.bool connected),
                               ("message", Json.str message)])]

/-- The envelope broadcast from the `finally` block of
`handle_browser_connection` (lines 82-88). -/
def browserDisconnectedStatus : Json :=
  statusEnvelope false "Browser disconnected"

/-- The envelope sent to a freshly accepted client (lines 98-104); `connected`
mirrors `self.browser_connection is not None`. -/
def clientWelcomeStatus (browserConnected : Bool) : Json :=
  statusEnvelope browserConnected "Connected to proxy server"

/-- The `error` envelope synthesized at lines 114-119 when a client message
arrives while no browser is connected. -/
def browserNotConnectedError : Json :=
  Json.obj [("type", Json.str "error"),
            ("data", Json.obj [("message",
              Json.str "Browser not connected. Cannot forward message.")])]

/-- Embeds `WebSocketProxy.handle_connection` (lines 58-64) together with the
registration step at the head of the two role handlers (line 68 resp. line 93):
while the browser slot is empty the accepted connection becomes the browser
(Primary); otherwise it is added to the client set (Secondary).  The check at
line 61 and the assignment at line 68 run with no suspension point between
them, so the pair is atomic under the cooperative scheduler.  Note that
`self.running` is never consulted here. -/
def handle_connection (s : WebSocketProxy) (c : Conn) : WebSocketProxy × Role :=
  match s.browser_connection with
  | none => ({ s with browser_connection := some c }, Role.Primary)
  | some _ => ({ s with client_connections := pySetAdd c s.client_connections },
               Role.Secondary)

/-- State effect of releasing an endpoint on disconnect: the browser handler's
`finally` clears the slot (line 80), the client handler's `finally` removes the
socket from the set (line 124).  The `KeyError` that `set.remove` raises on an
absent element is modelled separately by `pySetRemove`; the set itself is
unchanged in that case, which `List.erase` also leaves unchanged. -/
def release (s : WebSocketProxy) (c : Conn) : WebSocketProxy :=
  if s.browser_connection = some c then { s with browser_connection := none }
  else { s with client_connections := s.client_connections.erase c }

/-- Connection lifecycle events driving the registry state. -/
inductive Event where
  | accept (c : Conn)
  | disconnect (c : Conn)

/-- One registry transition per lifecycle event. -/
def step (s : WebSocketProxy) : Event → WebSocketProxy
  | Event.accept c => (handle_connection s c).1
  | Event.disconnect c => release s c

/-- Run a sequence of lifecycle events from a starting state. -/
def run (s : WebSocketProxy) (tr : List Event) : WebSocketProxy :=
  tr.foldl step s

/-- The endpoints currently holding the Primary role: the content of the
single `browser_connection` field. -/
def primaryHolders (s : WebSocketProxy) : List Conn :=
  s.browser_connection.toList

/-- Embeds the client message loop body (lines 108-119): a payload received
from a client is forwarded verbatim to the browser when one is registered,
otherwise a synthesized `error` envelope goes back to the sender alone.
Returns the list of (target, wire unit) sends performed. -/
def on_client_message (s : WebSocketProxy) (sender : Conn) (m : String) :
    List (Conn × Wire) :=
  match s.browser_connection with
  | some b => [(b, Wire.raw m)]
  | none => [(sender, Wire.env browserNotConnectedError)]

/-- Result of one `broadcast_to_clients` call: the sends that succeeded, the
`disconnected_clients` set collected inside the loop, and the client set after
the cleanup loop. -/
structure BroadcastResult where
  sent : List (Conn × Wire)
  disconnected : List Conn
  clients : List Conn

/-- The `for client in ...` loop of lines 133-138: attempt a send to each
client in iteration order; a send raising `ConnectionClosed` (the `closed`
clients) adds the target to `disconnected_clients` instead of aborting. -/
def broadcastLoop (closed : Conn → Bool) (message : Wire) :
    List Conn → List (Conn × Wire) × List Conn
  | [] => ([], [])
  | c :: rest =>
    let r := broadcastLoop closed message rest
    if closed c then (r.1, c :: r.2) else ((c, message) :: r.1, r.2)

/-- The cleanup loop of lines 140-142: `self.client_connections.remove(client)`
for each collected client (each is present, so `set.remove` cannot raise
here). -/
def removeAll (l : List Conn) (ds : List Conn) : List Conn :=
  ds.foldl (fun acc c => acc.erase c) l

/-- Embeds `WebSocketProxy.broadcast_to_clients` (lines 127-142) with the loop
run atomically: early return on an empty client set, one send attempt per
client, failed targets collected and removed afterwards.  `closed c = true`
means the send to `c` raises `ConnectionClosed`. -/
def broadcast_to_clients (clients : List Conn) (closed : Conn → Bool)
    (message : Wire) : BroadcastResult :=
  if clients = [] then ⟨[], [], clients⟩
  else
    let r := broadcastLoop closed message clients
    ⟨r.1, r.2, removeAll clients r.2⟩

/-- Embeds the `finally` block of `handle_browser_connection` (lines 78-88):
clear the browser slot, then broadcast the `status` envelope with
`connected = False` to the client set.  Returns the new state and the sends
performed. -/
def handle_browser_disconnect (s : WebSocketProxy) (closed : Conn → Bool) :
    WebSocketProxy × List (Conn × Wire) :=
  let s1 := { s with browser_connection := none }
  let r := broadcast_to_clients s1.client_connections closed
      (Wire.env browserDisconnectedStatus)
  ({ s1 with client_connections := r.clients }, r.sent)

/-- Fault raised by CPython's set iterator when the set's size at a `next`
call differs from its size when the iterator was created. -/
inductive Fault where
  | setChangedDuringIteration
deriving Repr, DecidableEq

/-- The broadcast loop of lines 133-138 run under the cooperative scheduler
without atomicity: `for client in self.client_connections:` iterates the LIVE
set (no copy is taken), and `await client.send(message)` is a suspension point
at which other tasks can mutate the set — in particular a client handler's
cleanup at line 124 removing itself.  `sched` lists, for each send performed,
the clients concurrently removed while that send was suspended.  CPython's set
iterator compares the set's current size against `used0`, its size at iterator
creation, on every `next` call and raises `RuntimeError` on a mismatch. -/
def broadcastLiveIter (message : Wire) (used0 : Nat) :
    List Conn → List Conn → List (List Conn) →
    Except Fault (List (Conn × Wire))
  | [], live, _ =>
    if live.length ≠ used0 then Except.error Fault.setChangedDuringIteration
    else Except.ok []
  | c :: rest, live, sched =>
    if live.length ≠ used0 then Except.error Fault.setChangedDuringIteration
    else
      let live2 := removeAll live (sched.headD [])
      (broadcastLiveIter message used0 rest live2 sched.tail).map
        (fun sent => (c, message) :: sent)

/-- `broadcast_to_clients` as the source runs it: live-set iteration starting
from the current client set, interleaved with the removals in `sched`. -/
def broadcast_to_clients_interleaved (clients : List Conn)
    (sched : List (List Conn)) (message : Wire) :
    Except Fault (List (Conn × Wire)) :=
  broadcastLiveIter message clients.length clients clients sched

/-- Modelled from the spec (§4.1 `snapshot_secondaries`, §5): the fan-out the
spec prescribes, iterating a point-in-time COPY of the secondary set so that
concurrent removals touch only the live set, never the iterator. -/
def broadcast_to_clients_snapshot (clients : List Conn)
    (sched : List (List Conn)) (message : Wire) :
    Except Fault (List (Conn × Wire)) :=
  let _ := sched
  Except.ok (clients.map (fun c => (c, message)))

/-- Embeds `WebSocketProxy.shutdown` (lines 144-170) run atomically: a call
with `running = False` returns at once with no effect; otherwise the flag is
lowered, a close is requested on every client and on the browser (if any), and
the listener is closed.  Returns the new state and the endpoints closed. -/
def shutdown (s : WebSocketProxy) : WebSocketProxy × List Conn :=
  if s.running = false then (s, [])
  else
    let closes := s.client_connections ++ s.browser_connection.toList
    ({ s with running := false, server_listening := false }, closes)

/-- Embeds `WebSocketProxy.start` (lines 36-56): raise the running flag, then
bind.  A bind failure is caught inside `start`: the diagnostic is logged
(returned here as the `Option String`), the running flag is lowered, and no
exception escapes. -/
def start (s : WebSocketProxy) (bindFails : Bool) :
    WebSocketProxy × Option String :=
  let s1 := { s with running := true }
  if bindFails then
    ({ s1 with running := false }, some "Error starting WebSocket server")
  else
    ({ s1 with server_listening := true }, none)

/-- Embeds `main` (lines 172-192): build the proxy, run `start` (whose bind
errors never escape), and `return 0` unconditionally at line 192;
`sys.exit(main())` makes that the process exit code. -/
def mainExitCode (bindFails : Bool) : Nat :=
  match start {} bindFails with
  | (_finalState, _loggedDiagnostic) => 0

/-! ## Helper lemmas -/

lemma broadcastLoop_fst (closed : Conn → Bool) (m : Wire) (l : List Conn) :
    (broadcastLoop closed m l).1 =
      (l.filter (fun c => !closed c)).map (fun c => (c, m)) := by
  induction l with
  | nil => rfl
  | cons a t ih => cases h : closed a <;> simp [broadcastLoop, List.filter_cons, h, ih]

lemma broadcastLoop_snd (closed : Conn → Bool) (m : Wire) (l : List Conn) :
    (broadcastLoop closed m l).2 = l.filter closed := by
  induction l with
  | nil => rfl
  | cons a t ih => cases h : closed a <;> simp [broadcastLoop, List.filter_cons, h, ih]

lemma broadcast_to_clients_eq (clients : List Conn) (closed : Conn → Bool)
    (m : Wire) :
    broadcast_to_clients clients closed m =
      ⟨(clients.filter (fun c => !closed c)).map (fun c => (c, m)),
       clients.filter closed,
       removeAll clients (clients.filter closed)⟩ := by
  by_cases h : clients = []
  · subst h; rfl
  · simp only [broadcast_to_clients, if_neg h, broadcastLoop_fst, broadcastLoop_snd]

lemma mem_removeAll {l : List Conn} (ds : List Conn) (h : l.Nodup) (x : Conn) :
    x ∈ removeAll l ds ↔ x ∈ l ∧ x ∉ ds := by
  induction ds generalizing l with
  | nil => simp [removeAll]
  | cons d ds ih =>
    have step : removeAll l (d :: ds) = removeAll (l.erase d) ds := rfl
    rw [step, ih (h.erase d), h.mem_erase_iff]
    simp only [List.mem_cons]
    tauto

lemma sentFor_length_zero (m : Wire) (c : Conn) (l : List Conn) (hc : c ∉ l) :
    ((l.map (fun x => (x, m))).filter (fun q => q.1 == c)).length = 0 := by
  induction l with
  | nil => rfl
  | cons a t ih =>
    have ha : (a == c) = false := by
      refine beq_eq_false_iff_ne.mpr fun e => hc ?_
      exact e ▸ List.mem_cons_self a t
    have ht : c ∉ t := fun hm => hc (List.mem_cons_of_mem a hm)
    simp [List.filter_cons, ha, ih ht]

lemma sentFor_length_one (m : Wire) (c : Conn) (l : List Conn)
    (hnd : l.Nodup) (hc : c ∈ l) :
    ((l.map (fun x => (x, m))).filter (fun q => q.1 == c)).length = 1 := by
  induction l with
  | nil => cases hc
  | cons a t ih =>
    have hat : a ∉ t := (List.nodup_cons.mp hnd).1
    rcases List.mem_cons.mp hc with e | hm
    · subst e
      simp [List.filter_cons, sentFor_length_zero m c t hat]
    · have hne : (a == c) = false :=
        beq_eq_false_iff_ne.mpr fun e => hat (e ▸ hm)
      simp [List.filter_cons, hne, ih (List.nodup_cons.mp hnd).2 hm]

/-! ## Claim theorems -/

/-- Claim C1: for every sequence of connection accepts and disconnects handled
by the relay, at most one endpoint holds the Primary role at any time; a newly
accepted connection becomes Primary exactly when the primary slot is empty and
Secondary otherwise. -/
theorem at_most_one_primary_role (s : WebSocketProxy) (c : Conn)
    (tr : List Event) :
    ((handle_connection s c).2 = Role.Primary ↔ s.browser_connection = none) ∧
    ((handle_connection s c).2 = Role.Secondary ↔ s.browser_connection ≠ none) ∧
    (primaryHolders (run s tr)).length ≤ 1 := by
  refine ⟨?_, ?_, ?_⟩
  · cases h : s.browser_connection <;> simp [handle_connection, h]
  · cases h : s.browser_connection <;> simp [handle_connection, h]
  · cases h : (run s tr).browser_connection <;> simp [primaryHolders, h]

/-- Claim C2: every client in the set at the start of the broadcast whose send
succeeds receives exactly the broadcast payload; a send failure to one target
removes that target afterwards and does not prevent delivery to any other
live target; the broadcast itself never escalates. -/
theorem broadcast_fanout_verbatim_and_failure_tolerant
    (clients : List Conn) (closed : Conn → Bool) (m : Wire) (c : Conn)
    (hnd : clients.Nodup) (hc : c ∈ clients) :
    (closed c = false → (c, m) ∈ (broadcast_to_clients clients closed m).sent) ∧
    (∀ w, (c, w) ∈ (broadcast_to_clients clients closed m).sent → w = m) ∧
    (closed c = true →
      (c, m) ∉ (broadcast_to_clients clients closed m).sent ∧
      c ∈ (broadcast_to_clients clients closed m).disconnected ∧
      c ∉ (broadcast_to_clients clients closed m).clients ∧
      ∀ d, d ∈ clients → closed d = false →
        (d, m) ∈ (broadcast_to_clients clients closed m).sent) := by
  rw [broadcast_to_clients_eq]
  refine ⟨?_, ?_, ?_⟩
  · intro h
    exact List.mem_map_of_mem _ (List.mem_filter.mpr ⟨hc, by simp [h]⟩)
  · intro w hw
    rcases List.mem_map.mp hw with ⟨a, _, e⟩
    simp only [Prod.mk.injEq] at e
    exact e.2.symm
  · intro h
    refine ⟨?_, List.mem_filter.mpr ⟨hc, h⟩, ?_, ?_⟩
    · intro hw
      rcases List.mem_map.mp hw with ⟨a, ha, e⟩
      simp only [Prod.mk.injEq] at e
      have : (!closed a) = true := (List.mem_filter.mp ha).2
      rw [e.1, h] at this
      cases this
    · rw [mem_removeAll _ hnd]
      intro ⟨_, habs⟩
      exact habs (List.mem_filter.mpr ⟨hc, h⟩)
    · intro d hd hdl
      exact List.mem_map_of_mem _ (List.mem_filter.mpr ⟨hd, by simp [hdl]⟩)

/-- Witness for C2 at clients = [1, 2] with the send to 2 failing. -/
theorem broadcast_fanout_witness :
    (2 : Conn) ∉ (broadcast_to_clients [1, 2] (fun c => c == 2)
      (Wire.raw "t")).clients ∧
    (1, Wire.raw "t") ∈ (broadcast_to_clients [1, 2] (fun c => c == 2)
      (Wire.raw "t")).sent :=
  ⟨((broadcast_fanout_verbatim_and_failure_tolerant [1, 2] (fun c => c == 2)
      (Wire.raw "t") 2 (by decide) (by decide)).2.2 rfl).2.2.1,
   ((broadcast_fanout_verbatim_and_failure_tolerant [1, 2] (fun c => c == 2)
      (Wire.raw "t") 2 (by decide) (by decide)).2.2 rfl).2.2.2 1 (by decide) rfl⟩

/-- Claim C3: when the browser (primary) disconnects, the slot is cleared and
every client whose connection is still live receives exactly one `status`
envelope whose data has `connected = false`; afterwards, while no new primary
has connected, a client message is answered with the error envelope instead of
being forwarded, and the next accepted connection becomes Primary. -/
theorem primary_disconnect_clears_and_notifies
    (s : WebSocketProxy) (closed : Conn → Bool) (c : Conn)
    (hnd : s.client_connections.Nodup)
    (hc : c ∈ s.client_connections) (hlive : closed c = false) :
    (handle_browser_disconnect s closed).1.browser_connection = none ∧
    ((handle_browser_disconnect s closed).2.filter
        (fun q => q.1 == c)).length = 1 ∧
    (∀ q ∈ (handle_browser_disconnect s closed).2,
        q.2 = Wire.env browserDisconnectedStatus) ∧
    ((browserDisconnectedStatus.lookup "data").bind
        (fun d => d.lookup "connected") = some (Json.bool false)) ∧
    (∀ sender m2,
        on_client_message (handle_browser_disconnect s closed).1 sender m2 =
          [(sender, Wire.env browserNotConnectedError)]) ∧
    (∀ c2, (handle_connection (handle_browser_disconnect s closed).1 c2).2 =
        Role.Primary) := by
  refine ⟨rfl, ?_, ?_, rfl, fun sender m2 => rfl, fun c2 => rfl⟩
  · show (((broadcast_to_clients s.client_connections closed
        (Wire.env browserDisconnectedStatus)).sent.filter
          (fun q => q.1 == c)).length = 1)
    rw [broadcast_to_clients_eq]
    exact sentFor_length_one _ c _ (hnd.filter _)
      (List.mem_filter.mpr ⟨hc, by simp [hlive]⟩)
  · intro q hq
    have hq2 : q ∈ (broadcast_to_clients s.client_connections closed
        (Wire.env browserDisconnectedStatus)).sent := hq
    rw [broadcast_to_clients_eq] at hq2
    rcases List.mem_map.mp hq2 with ⟨a, _, e⟩
    rw [← e]

/-- Witness for C3: browser 9 disconnects while clients 1 and 2 are live. -/
theorem primary_disconnect_witness :
    ((handle_browser_disconnect
        { browser_connection := some 9, client_connections := [1, 2],
          running := true }
        (fun _ => false)).2.filter (fun q => q.1 == 1)).length = 1 :=
  (primary_disconnect_clears_and_notifies _ _ 1 (by decide) (by decide)
    rfl).2.1

/-- Claim C4: a client message arriving while no browser is registered is
answered by exactly one synthesized error envelope to the sender and delivered
nowhere; with a browser registered the payload is forwarded verbatim to the
browser alone. -/
theorem client_message_routing (s : WebSocketProxy) (sender : Conn)
    (m : String) (h : s.browser_connection = none) :
    on_client_message s sender m =
      [(sender, Wire.env browserNotConnectedError)] ∧
    (∀ s2 : WebSocketProxy, ∀ b : Conn, s2.browser_connection = some b →
      on_client_message s2 sender m = [(b, Wire.raw m)]) := by
  constructor
  · simp [on_client_message, h]
  · intro s2 b h2
    simp [on_client_message, h2]

/-- Witness for C4 at sender 3, message "cmd". -/
theorem client_message_routing_witness :
    on_client_message {} 3 "cmd" =
      [(3, Wire.env browserNotConnectedError)] ∧
    on_client_message { browser_connection := some 1 } 3 "cmd" =
      [(1, Wire.raw "cmd")] :=
  ⟨(client_message_routing {} 3 "cmd" rfl).1,
   (client_message_routing {} 3 "cmd" rfl).2
     { browser_connection := some 1 } 1 rfl⟩

/-- Claim C5 (refuted): the source's fan-out loop iterates the LIVE client
set, not a snapshot.  With clients {1, 2} and client 2 removed by a concurrent
task while the send to 1 is suspended, the iteration raises the
concurrent-modification fault; the snapshot discipline the spec prescribes
does not. -/
theorem live_iteration_concurrent_removal_fault :
    broadcast_to_clients_interleaved [1, 2] [[2]] (Wire.raw "telemetry") =
      Except.error Fault.setChangedDuringIteration ∧
    broadcast_to_clients_snapshot [1, 2] [[2]] (Wire.raw "telemetry") =
      Except.ok [(1, Wire.raw "telemetry"), (2, Wire.raw "telemetry")] :=
  ⟨rfl, rfl⟩

/-- Claim C6 (refuted): a client evicted by the broadcast cleanup is no longer
in the set, and the `set.remove` of its own disconnect cleanup (line 124) then
raises KeyError instead of being a no-op. -/
theorem cleanup_remove_absent_raises :
    (broadcast_to_clients [2] (fun c => c == 2) (Wire.raw "m")).clients = [] ∧
    pySetRemove [] 2 = Except.error "KeyError" ∧
    release { browser_connection := some 9 } 9 =
      { browser_connection := none } :=
  ⟨rfl, rfl, by decide⟩

/-- Claim C7 (refuted): `handle_connection` never consults the running flag,
so after `shutdown` has lowered it (and the browser slot was cleared by the
browser's own disconnect) a late-handshake connection is still registered and
assigned a role — the Primary role, even — instead of being closed. -/
theorem accept_after_shutdown_still_registered :
    (shutdown { running := true, browser_connection := some 9,
                server_listening := true }).1.running = false ∧
    (handle_connection { running := false } 5).1.browser_connection = some 5 ∧
    (handle_connection { running := false } 5).2 = Role.Primary ∧
    (handle_connection { running := false, browser_connection := some 1 }
      6).1.client_connections = [6] := by
  refine ⟨?_, ?_, ?_, ?_⟩ <;> decide

/-- Claim C8: shutdown is idempotent — the guard on the running flag makes a
second call a no-op, closing no endpoint and changing no state. -/
theorem shutdown_idempotent (s : WebSocketProxy) :
    (shutdown (shutdown s).1).1 = (shutdown s).1 ∧
    (shutdown (shutdown s).1).2 = ([] : List Conn) := by
  cases h : s.running <;> simp [shutdown, h]

/-- Claim C9 (counterexample): with the bind failing, `main` still returns 0
— the exit code is not non-zero. -/
theorem bind_failure_exits_zero : mainExitCode true = 0 := rfl

/-- Claim C9 (amended): the process exits with code 0 both on normal shutdown
and on bind failure; the bind failure is reported to the operator only as a
logged diagnostic. -/
theorem exit_code_zero_always (bindFails : Bool) :
    mainExitCode bindFails = 0 ∧
    ((start {} bindFails).2.isSome ↔ bindFails = true) := by
  cases bindFails <;> simp [mainExitCode, start]

/-- Claim C10: each of the three relay-synthesized envelopes carries exactly
the top-level keys `type` and `data` — in particular neither `sender` nor
`timestamp`. -/
theorem synthesized_envelope_keys (b : Bool) :
    browserDisconnectedStatus.keys = ["type", "data"] ∧
    (clientWelcomeStatus b).keys = ["type", "data"] ∧
    browserNotConnectedError.keys = ["type", "data"] ∧
    "sender" ∉ browserDisconnectedStatus.keys ∧
    "timestamp" ∉ browserDisconnectedStatus.keys ∧
    "sender" ∉ (clientWelcomeStatus b).keys ∧
    "timestamp" ∉ (clientWelcomeStatus b).keys ∧
    "sender" ∉ browserNotConnectedError.keys ∧
    "timestamp" ∉ browserNotConnectedError.keys := by
  cases b <;> decide

end Proxy
